import Mathlib

/-!
Shallow embedding of the scope_guard library (src/scope_guard.hpp, with the
compile-time trait data taken from src/compile_time_tests.cpp).

A `scope_guard` owns a callback, an active flag, and an exit policy (the
`exit_type` template parameter of the C++ class, modelled here as data).
The destructor invokes the callback iff the guard is active and the
exit-policy evaluator `should_run` returns true at that instant; the
error-propagation signal is the `std::uncaught_exceptions()` count, modelled
as a `Nat`.  Invocation effects are modelled as traces: destroying a guard
yields the list of callbacks it invoked (length 0 or 1).
-/

namespace sg

/-- Exit policies, from `enum class ExitType` (scope_guard.hpp:26-32). -/
inductive ExitType where
  | ALWAYS
  | ON_SUCCESS
  | ON_FAILURE
  deriving DecidableEq

/-- The exit-policy evaluator (scope_guard.hpp:87-105).  The C++20 branch
queries `std::uncaught_exceptions()`, a count of errors currently
propagating, modelled as a `Nat`: ALWAYS returns true; ON_SUCCESS returns
true iff the count is zero; ON_FAILURE returns true iff it is nonzero.
(The C++14/17 branch is the boolean special case, count in 0 or 1.) -/
def should_run (exit_type : ExitType) (uncaught_exceptions : Nat) : Bool :=
  match exit_type with
  | ExitType.ALWAYS => true
  | ExitType.ON_SUCCESS => uncaught_exceptions == 0
  | ExitType.ON_FAILURE => uncaught_exceptions != 0

/-- The guard state (scope_guard.hpp:127-160): the bound callback
`m_callback`, the liveness flag `m_active`, and the `exit_type` template
parameter of the class, carried here as a field. -/
structure scope_guard (α : Type) where
  m_callback : α
  m_active : Bool
  exit_type : ExitType
  deriving DecidableEq

/-- The factory `make_scope_guard` (scope_guard.hpp:209-215) delegating to
the private constructor (scope_guard.hpp:172-180): binds the callback and
sets `m_active` to true; the policy is the `exit_type` template argument. -/
def make_scope_guard {α : Type} (exit_type : ExitType) (callback : α) :
    scope_guard α :=
  { m_callback := callback, m_active := true, exit_type := exit_type }

/-- The declared factory signature (scope_guard.hpp:117-119) returns
`scope_guard<Callback>`, whose `exit_type` template parameter defaults to
`ExitType::ALWAYS` (scope_guard.hpp:109). -/
def make_scope_guard_default {α : Type} (callback : α) : scope_guard α :=
  make_scope_guard ExitType.ALWAYS callback

/-- `dismiss` (scope_guard.hpp:202-206): sets `m_active = false`. -/
def dismiss {α : Type} (g : scope_guard α) : scope_guard α :=
  { g with m_active := false }

/-- The move constructor (scope_guard.hpp:192-199).  Returns the pair
(new guard, moved-from source): the new guard holds the callback, the
source's prior `m_active`, and the same `exit_type`; the source's
`m_active` is set to false in the same operation. -/
def move_construct {α : Type} (g : scope_guard α) :
    scope_guard α × scope_guard α :=
  ({ m_callback := g.m_callback, m_active := g.m_active,
     exit_type := g.exit_type },
   { g with m_active := false })

/-- The destructor's firing condition (scope_guard.hpp:187):
`m_active && should_run<exit_type>::should_run()`. -/
def fires {α : Type} (g : scope_guard α) (uncaught_exceptions : Nat) : Bool :=
  g.m_active && should_run g.exit_type uncaught_exceptions

/-- The destructor's invocation trace (scope_guard.hpp:183-189): the list of
callbacks invoked while destroying `g` with `uncaught_exceptions` errors
propagating — `[g.m_callback]` when the guard fires, `[]` otherwise. -/
def dtor_invocations {α : Type} (g : scope_guard α)
    (uncaught_exceptions : Nat) : List α :=
  if fires g uncaught_exceptions then [g.m_callback] else []

/-- All guards in existence after `n` successive relocations of `g`: the
`n` moved-from sources in order, then the final holder. -/
def relocChain {α : Type} (g : scope_guard α) : Nat → List (scope_guard α)
  | 0 => [g]
  | Nat.succ n => (move_construct g).2 :: relocChain (move_construct g).1 n

/-- Destroying each guard in the list in order, the i-th one with the i-th
error-propagation signal; yields the concatenated invocation traces. -/
def destroyAll {α : Type} : List (scope_guard α) → List Nat → List α
  | g :: gs, s :: ss => dtor_invocations g s ++ destroyAll gs ss
  | _, _ => []

/- --- Compile-time action-validity contract (scope_guard.hpp:37-85),
modelled on the static attributes of a candidate callback type. --- -/

/-- Static attributes of a candidate callback type, as queried by the traits
in scope_guard.hpp: `is_noarg_callable_t` (37-46), `returns_void_t` (48-52),
`std::is_nothrow_invocable` (60), `std::is_nothrow_destructible` (84), and
`std::is_nothrow_constructible<Callback, Callback&&>` (119, 134, 148). -/
structure CallbackTraits where
  is_noarg_callable : Bool
  returns_void : Bool
  is_nothrow_invocable : Bool
  is_nothrow_destructible : Bool
  is_nothrow_move_constructible : Bool
  deriving DecidableEq

/-- `is_nothrow_invocable_if_required_t` (scope_guard.hpp:56-67): under
SG_REQUIRE_NOEXCEPT it is `std::is_nothrow_invocable`; otherwise
`std::true_type`. -/
def is_nothrow_invocable_if_required (sg_require_noexcept : Bool)
    (t : CallbackTraits) : Bool :=
  if sg_require_noexcept then t.is_nothrow_invocable else true

/-- `and_t<A, B>` (scope_guard.hpp:74-76): `std::conditional<A::value, B, A>`. -/
def and_t (a b : Bool) : Bool := if a then b else a

/-- `is_proper_sg_callback_t` (scope_guard.hpp:79-85): the `and_t` of the
four checks, in source order. -/
def is_proper_sg_callback (sg_require_noexcept : Bool)
    (t : CallbackTraits) : Bool :=
  and_t t.is_noarg_callable
    (and_t t.returns_void
      (and_t (is_nothrow_invocable_if_required sg_require_noexcept t)
        t.is_nothrow_destructible))

/- --- noexcept specifications of the guard's operations --- -/

/-- noexcept specification of `make_scope_guard` (scope_guard.hpp:118-119,
210-211): `noexcept(std::is_nothrow_constructible<Callback, Callback&&>)`. -/
def make_scope_guard_noexcept (t : CallbackTraits) : Bool :=
  t.is_nothrow_move_constructible

/-- noexcept specification of the move constructor (scope_guard.hpp:133-134):
`noexcept(std::is_nothrow_constructible<Callback, Callback&&>)`. -/
def move_ctor_noexcept (t : CallbackTraits) : Bool :=
  t.is_nothrow_move_constructible

/-- noexcept specification of `dismiss` (scope_guard.hpp:138):
unconditionally `noexcept`. -/
def dismiss_noexcept : Bool := true

/-- noexcept specification of the destructor (scope_guard.hpp:136):
unconditionally `noexcept`. -/
def dtor_noexcept : Bool := true

/-- The traits of `struct throwing_move` (compile_time_tests.cpp:100-109):
a nothrow void no-arg call operator and nothrow destructor, but a
`noexcept(false)` move constructor. -/
def throwing_move : CallbackTraits :=
  { is_noarg_callable := true, returns_void := true,
    is_nothrow_invocable := true, is_nothrow_destructible := true,
    is_nothrow_move_constructible := false }

/- --- Outcome model for the unconditionally-noexcept destructor --- -/

/-- Outcome of a call through an unconditional `noexcept` boundary: either
it completes, or — if the body raised — the process is abnormally
terminated (C++ calls `std::terminate`).  There is no constructor for
"error propagated past the boundary". -/
inductive NoexceptResult (ε : Type) where
  | completed
  | terminated (e : ε)
  deriving DecidableEq

/-- C++ semantics of an escaping error meeting a `noexcept` boundary:
an `Except.error` becomes abnormal termination, never propagation. -/
def noexcept_call {ε : Type} (body : Except ε Unit) : NoexceptResult ε :=
  match body with
  | Except.ok _ => NoexceptResult.completed
  | Except.error e => NoexceptResult.terminated e

/-- The destructor body (scope_guard.hpp:187-188) with a fallible callback:
`run` gives each callback's invocation behaviour (normal return or raised
error). -/
def dtor_body {ε α : Type} (run : α → Except ε Unit) (g : scope_guard α)
    (uncaught_exceptions : Nat) : Except ε Unit :=
  if fires g uncaught_exceptions then run g.m_callback else Except.ok ()

/-- The destructor as a whole (scope_guard.hpp:136, 183-189): the body
wrapped in the unconditional `noexcept` boundary. -/
def dtor {ε α : Type} (run : α → Except ε Unit) (g : scope_guard α)
    (uncaught_exceptions : Nat) : NoexceptResult ε :=
  noexcept_call (dtor_body run g uncaught_exceptions)

/- --- Helper lemmas --- -/

/-- A guard whose `m_active` is false invokes nothing at destruction. -/
theorem dtor_invocations_of_inactive {α : Type} (g : scope_guard α)
    (u : Nat) (h : g.m_active = false) : dtor_invocations g u = [] := by
  simp [dtor_invocations, fires, h]

/-- A single destruction invokes at most one callback. -/
theorem dtor_invocations_length_le_one {α : Type} (g : scope_guard α)
    (u : Nat) : (dtor_invocations g u).length ≤ 1 := by
  unfold dtor_invocations
  split <;> simp

/-- Destroying every guard of a relocation chain, each under an arbitrary
error-propagation signal, performs at most one invocation in total. -/
theorem destroyAll_relocChain_length_le_one {α : Type} (n : Nat) :
    ∀ (g : scope_guard α) (sigs : List Nat),
      (destroyAll (relocChain g n) sigs).length ≤ 1 := by
  induction n with
  | zero =>
    intro g sigs
    cases sigs with
    | nil => simp [relocChain, destroyAll]
    | cons s ss =>
      simp only [relocChain, destroyAll, List.append_nil]
      exact dtor_invocations_length_le_one g s
  | succ n ih =>
    intro g sigs
    cases sigs with
    | nil => simp [relocChain, destroyAll]
    | cons s ss =>
      have h2 : dtor_invocations (move_construct g).2 s = [] :=
        dtor_invocations_of_inactive _ _ rfl
      simp only [relocChain, destroyAll, h2, List.nil_append]
      exact ih (move_construct g).1 ss

/- --- Claim theorems --- -/

/-- C1: for every action bound through the factory, any sequence of
relocations followed by destruction of all guards involved (each under an
arbitrary error-propagation signal) invokes the action at most once; with
policy ALWAYS and no dismissal, a guard reaching ordinary end-of-life
invokes the action exactly once; and after relocating G1 into G2, G1's
destruction performs no invocation while G2's performs the single one. -/
theorem c1_at_most_one_invocation {α : Type} (cb : α) (p : ExitType)
    (n : Nat) (sigs : List Nat) (s1 s2 : Nat) :
    (destroyAll (relocChain (make_scope_guard p cb) n) sigs).length ≤ 1
    ∧ dtor_invocations (make_scope_guard ExitType.ALWAYS cb) s1 = [cb]
    ∧ dtor_invocations
        (move_construct (make_scope_guard ExitType.ALWAYS cb)).2 s1 = []
    ∧ dtor_invocations
        (move_construct (make_scope_guard ExitType.ALWAYS cb)).1 s2 = [cb] := by
  refine ⟨destroyAll_relocChain_length_le_one n _ sigs, ?_, ?_, ?_⟩
  · simp [dtor_invocations, fires, make_scope_guard, should_run]
  · exact dtor_invocations_of_inactive _ _ rfl
  · simp [dtor_invocations, fires, move_construct, make_scope_guard, should_run]

/-- C2: at destruction, an active guard invokes its bound action iff the
exit-policy evaluator, queried at that instant with the guard's policy and
the live error-propagation signal, returns true; an inactive guard never
invokes the action at destruction, for every policy and signal. -/
theorem c2_dtor_fires_iff_policy {α : Type} (g : scope_guard α) (u : Nat) :
    (g.m_active = true →
      (dtor_invocations g u = [g.m_callback] ↔
        should_run g.exit_type u = true))
    ∧ (g.m_active = false → dtor_invocations g u = []) := by
  constructor
  · intro ha
    cases hr : should_run g.exit_type u with
    | false => simp [dtor_invocations, fires, ha, hr]
    | true => simp [dtor_invocations, fires, ha, hr]
  · exact dtor_invocations_of_inactive g u

/-- Witness for C2 at a concrete guard: an active ON_SUCCESS guard destroyed
with no error propagating invokes its action; the dismissed guard does not. -/
theorem c2_dtor_fires_iff_policy_witness :
    dtor_invocations (make_scope_guard ExitType.ON_SUCCESS (0 : Nat)) 0 = [0]
    ∧ dtor_invocations
        (dismiss (make_scope_guard ExitType.ON_SUCCESS (0 : Nat))) 0 = [] :=
  ⟨((c2_dtor_fires_iff_policy (make_scope_guard ExitType.ON_SUCCESS 0) 0).1
      rfl).mpr rfl,
   (c2_dtor_fires_iff_policy
      (dismiss (make_scope_guard ExitType.ON_SUCCESS 0)) 0).2 rfl⟩

/-- C3: the exit-policy evaluator is a pure predicate of the policy and the
error-propagation signal: ALWAYS is constantly true; ON_SUCCESS holds iff no
error is propagating; ON_FAILURE holds iff one is, the exact complement of
ON_SUCCESS on every input. -/
theorem c3_should_run_cases (u : Nat) :
    should_run ExitType.ALWAYS u = true
    ∧ (should_run ExitType.ON_SUCCESS u = true ↔ u = 0)
    ∧ (should_run ExitType.ON_FAILURE u = true ↔ u ≠ 0)
    ∧ should_run ExitType.ON_FAILURE u = !should_run ExitType.ON_SUCCESS u := by
  refine ⟨rfl, ?_, ?_, ?_⟩
  · simp [should_run]
  · simp [should_run]
  · simp [should_run, Bool.not_eq_true]
    cases h : (u == 0) <;> simp [bne, h]

/-- Witness for C3 at concrete signals: ON_SUCCESS fires with 0 errors
propagating; ON_FAILURE fires with 3. -/
theorem c3_should_run_cases_witness :
    should_run ExitType.ON_SUCCESS 0 = true
    ∧ should_run ExitType.ON_FAILURE 3 = true :=
  ⟨((c3_should_run_cases 0).2.1).mpr rfl,
   ((c3_should_run_cases 3).2.2.1).mpr (by decide)⟩

/-- C4: relocation is a single operation: the new guard holds the same
action, inherits the policy, and takes over the source's prior active
value, while the source becomes inactive; the source and destination are
never both active afterwards, and relocating an inactive source yields an
inactive destination. -/
theorem c4_move_construct_transfer {α : Type} (g : scope_guard α) :
    (move_construct g).1.m_callback = g.m_callback
    ∧ (move_construct g).1.exit_type = g.exit_type
    ∧ (move_construct g).1.m_active = g.m_active
    ∧ (move_construct g).2.m_active = false
    ∧ ¬((move_construct g).1.m_active = true
        ∧ (move_construct g).2.m_active = true)
    ∧ (g.m_active = false → (move_construct g).1.m_active = false) := by
  refine ⟨rfl, rfl, rfl, rfl, ?_, ?_⟩
  · rintro ⟨-, h2⟩
    simp [move_construct] at h2
  · intro h
    simpa [move_construct] using h

/-- Witness for C4 at a concrete guard: after relocating a dismissed guard,
neither party is active. -/
theorem c4_move_construct_transfer_witness :
    ¬((move_construct (dismiss
          (make_scope_guard ExitType.ALWAYS (0 : Nat)))).1.m_active = true
      ∧ (move_construct (dismiss
          (make_scope_guard ExitType.ALWAYS (0 : Nat)))).2.m_active = true)
    ∧ (move_construct (dismiss
        (make_scope_guard ExitType.ALWAYS (0 : Nat)))).1.m_active = false :=
  ⟨(c4_move_construct_transfer
      (dismiss (make_scope_guard ExitType.ALWAYS 0))).2.2.2.2.1,
   (c4_move_construct_transfer
      (dismiss (make_scope_guard ExitType.ALWAYS 0))).2.2.2.2.2 rfl⟩

/-- C5: the factory produces a guard bound to the given action, initially
active, with the caller-selected policy; the declared factory signature
uses the class template's default policy, which is ALWAYS. -/
theorem c5_factory_binds {α : Type} (cb : α) (p : ExitType) :
    (make_scope_guard p cb).m_callback = cb
    ∧ (make_scope_guard p cb).m_active = true
    ∧ (make_scope_guard p cb).exit_type = p
    ∧ make_scope_guard_default cb = make_scope_guard ExitType.ALWAYS cb :=
  ⟨rfl, rfl, rfl, rfl⟩

/-- C6: a candidate action is accepted iff all four checks hold: no-arg
callable, void-returning, nothrow-invocable when strict mode is on (that
check passing unconditionally when it is off), and nothrow-destructible. -/
theorem c6_validity_contract (sg_require_noexcept : Bool)
    (t : CallbackTraits) :
    (is_proper_sg_callback sg_require_noexcept t = true ↔
      (t.is_noarg_callable = true ∧ t.returns_void = true
        ∧ (sg_require_noexcept = true → t.is_nothrow_invocable = true)
        ∧ t.is_nothrow_destructible = true))
    ∧ is_nothrow_invocable_if_required false t = true := by
  constructor
  · obtain ⟨a, b, c, d, e⟩ := t
    cases sg_require_noexcept <;> cases a <;> cases b <;> cases c <;>
      cases d <;> simp [is_proper_sg_callback, and_t,
        is_nothrow_invocable_if_required]
  · rfl

/-- Witness for C6: the `throwing_move` callback type from the test file
passes the contract even in strict mode. -/
theorem c6_validity_contract_witness :
    is_proper_sg_callback true throwing_move = true :=
  ((c6_validity_contract true throwing_move).1).mpr
    ⟨rfl, rfl, fun _ => rfl, rfl⟩

/-- C7: dismiss sets the active flag to false, is idempotent (any positive
number of calls equals one call), and a dismissed guard never invokes its
action at destruction, for every policy and signal. -/
theorem c7_dismiss_idempotent {α : Type} (g : scope_guard α) (k u : Nat) :
    (dismiss g).m_active = false
    ∧ dismiss (dismiss g) = dismiss g
    ∧ dismiss^[k + 1] g = dismiss g
    ∧ dtor_invocations (dismiss g) u = [] := by
  refine ⟨rfl, rfl, ?_, dtor_invocations_of_inactive _ _ rfl⟩
  rw [Function.iterate_succ_apply]
  exact Function.iterate_fixed rfl k

/-- C8 counterexample: `throwing_move` (compile_time_tests.cpp:100-109) is a
valid action even in strict mode, yet `make_scope_guard` and the move
constructor are not noexcept over it (compile_time_tests.cpp:239-243,
test_12), so constructing and relocating a guard over a validated action
can fail at runtime. -/
theorem c8_noexcept_counterexample :
    is_proper_sg_callback true throwing_move = true
    ∧ make_scope_guard_noexcept throwing_move = false
    ∧ move_ctor_noexcept throwing_move = false :=
  ⟨rfl, rfl, rfl⟩

/-- C8 (amended): constructing a guard and relocating it are non-failing
exactly when the action type is nothrow-constructible from an rvalue of
itself; dismissal and destruction can never fail, for every action type. -/
theorem c8_noexcept_conditional (t : CallbackTraits) :
    make_scope_guard_noexcept t = t.is_nothrow_move_constructible
    ∧ move_ctor_noexcept t = t.is_nothrow_move_constructible
    ∧ dismiss_noexcept = true
    ∧ dtor_noexcept = true :=
  ⟨rfl, rfl, rfl, rfl⟩

/-- C9: the destructor cannot fail outward: whenever its body raises an
error — in particular whenever the guard fires and the action's invocation
fails — the outcome is abnormal termination of the process, never
propagation past the guard's end-of-life, for every policy and action. -/
theorem c9_dtor_never_propagates {ε α : Type} (run : α → Except ε Unit)
    (g : scope_guard α) (u : Nat) (e : ε) :
    (dtor_body run g u = Except.error e →
      dtor run g u = NoexceptResult.terminated e)
    ∧ (run g.m_callback = Except.error e → fires g u = true →
      dtor run g u = NoexceptResult.terminated e) := by
  constructor
  · intro h
    simp [dtor, h, noexcept_call]
  · intro h hf
    simp [dtor, dtor_body, hf, h, noexcept_call]

/-- Witness for C9 at a concrete guard: an ALWAYS guard whose action raises
error 7 terminates the process with that error at destruction. -/
theorem c9_dtor_never_propagates_witness :
    dtor (fun _ : Unit => Except.error 7)
      (make_scope_guard ExitType.ALWAYS ()) 0
    = NoexceptResult.terminated 7 :=
  (c9_dtor_never_propagates (fun _ : Unit => Except.error 7)
    (make_scope_guard ExitType.ALWAYS ()) 0 7).2 rfl rfl

/-- C10: dismiss modifies only the active flag: the bound action and the
policy are unchanged by a call to dismiss, for every guard state. -/
theorem c10_dismiss_frame {α : Type} (g : scope_guard α) :
    (dismiss g).m_callback = g.m_callback
    ∧ (dismiss g).exit_type = g.exit_type :=
  ⟨rfl, rfl⟩

end sg
